import Mathlib

set_option maxRecDepth 4000

/-!
Verification development for the quick_rag repository.

The embedded code is the RAG control graph of `src/api.py` (the same graph
appears in `src/rag.py` with console logging added): routing
(`generate_query_or_respond` + langgraph `tools_condition`), the retriever
tool (`retrieve_from_books`), relevance grading (`grade_documents`), query
rewriting (`rewrite_question`), answer generation (`generate_answer`), the
graph wiring (`build_graph`), and the REST handler (`ask_question`) with its
module-level `retrieved_sources` global.

External collaborators (the OpenAI chat model and the Qdrant retriever) are
modelled as oracle functions supplied to the step relation; the model is
called with temperature 0, so modelling each kind of call as a function of
its full input is faithful to the code.
-/

namespace QuickRag

/-- Roles of conversation turns (langchain message types). -/
inductive Role
  | user
  | assistant
  | tool
  deriving DecidableEq, Repr

/-- One conversation turn.  `toolQuery` models the tool-call metadata of an
assistant message: `some q` when the routing model requested
`retrieve_from_books(query := q)`, `none` otherwise. -/
structure Message where
  role : Role
  content : String
  toolQuery : Option String
  deriving DecidableEq, Repr

/-- A Python metadata value, as far as `retrieve_from_books` inspects it.
`vint` also covers Python `bool` (a subtype of `int`); `vfloat` models a
finite Python float as a rational. -/
inductive PyVal
  | vint (n : Int)
  | vfloat (q : Rat)
  | vstr (s : String)
  | vnone
  deriving DecidableEq, Repr

/-- A document returned by `retriever.invoke`: `page_content` plus the two
metadata keys the code reads (`source_file`, `page`); `none` models a
missing key. -/
structure Doc where
  page_content : String
  source_file : Option String
  page : Option PyVal
  deriving DecidableEq, Repr

/-- `SourceDocument` pydantic model of api.py. -/
structure SourceDocument where
  source_file : String
  page : Int
  content_preview : String
  deriving DecidableEq, Repr

/-- Python `int()` applied to a rational-valued float: truncation toward
zero (`Int.div` is T-division, matching CPython). -/
def truncRat (q : Rat) : Int :=
  q.num.tdiv q.den

/-- `int(page) if isinstance(page, (int, float)) else 0` from
`retrieve_from_books`. -/
def pageToInt : PyVal → Int
  | PyVal.vint n => n
  | PyVal.vfloat q => truncRat q
  | PyVal.vstr _ => 0
  | PyVal.vnone => 0

/-- True exactly on the values Python's `isinstance(page, (int, float))`
accepts. -/
def isNumericPy : PyVal → Bool
  | PyVal.vint _ => true
  | PyVal.vfloat _ => true
  | PyVal.vstr _ => false
  | PyVal.vnone => false

/-- `doc.page_content[:200] + "..." if len(doc.page_content) > 200 else
doc.page_content` from `retrieve_from_books` (api.py line 136). -/
def contentPreview (s : String) : String :=
  if 200 < s.length then s.take 200 ++ "..." else s

/-- Python `str()` rendering of a metadata value as used by the f-string in
`retrieve_from_books`.  The rendering of floats is abstracted (no claim
depends on it). -/
def pyStr : PyVal → String
  | PyVal.vint n => toString n
  | PyVal.vfloat q => toString q
  | PyVal.vstr s => s
  | PyVal.vnone => "None"

/-- The source-record dict appended to `retrieved_sources` for one document
(api.py lines 133-137). -/
def mkSource (d : Doc) : SourceDocument :=
  { source_file := d.source_file.getD "Unknown"
    page := pageToInt (d.page.getD (PyVal.vstr "Unknown"))
    content_preview := contentPreview d.page_content }

/-- The f-string `"[Source: {source}, Page: {page}]\n{doc.page_content}"`
appended to `results` for one document (api.py line 139). -/
def sourceLine (d : Doc) : String :=
  "[Source: " ++ d.source_file.getD "Unknown" ++ ", Page: " ++
    pyStr (d.page.getD (PyVal.vstr "Unknown")) ++ "]\n" ++ d.page_content

/-- Body of `retrieve_from_books` after the retriever call: given the
documents, produce the new value of the `retrieved_sources` global and the
tool's string result.  The global is first reset to `[]`; when no documents
are found the explicit marker string is returned (api.py lines 119-141). -/
def retrieveResult (docs : List Doc) : List SourceDocument × String :=
  match docs with
  | [] => ([], "No relevant information found in the books.")
  | _ => (docs.map mkSource, String.intercalate "\n\n---\n\n" (docs.map sourceLine))

/-- `retrieve_from_books(query)` with the retriever supplied as a function. -/
def retrieve_from_books (retrieverDocs : String → List Doc) (query : String) :
    List SourceDocument × String :=
  retrieveResult (retrieverDocs query)

/-- `GRADE_PROMPT.format(question=question, context=context)` of api.py. -/
def GRADE_PROMPT (question context : String) : String :=
  "You are a grader assessing relevance of retrieved documents to a student\x27s question.\n\nHere is the retrieved document:\n"
    ++ context
    ++ "\n\nHere is the student\x27s question: "
    ++ question
    ++ "\n\nIf the document contains information that could help answer the student\x27s question (keywords, concepts, formulas, explanations related to the topic), grade it as relevant.\n\nGive a binary score \x27yes\x27 or \x27no\x27 to indicate whether the document is relevant to the question."

/-- `REWRITE_PROMPT.format(question=question)` of api.py. -/
def REWRITE_PROMPT (question : String) : String :=
  "You are helping to improve a student\x27s question for better search results.\n\nThe previous search didn\x27t return relevant results. Please rewrite the question to be more specific or use different terminology that might be found in school textbooks.\n\nOriginal question: "
    ++ question
    ++ "\n\nRewrite the question to improve search results (keep it focused on the educational topic):"

/-- `GENERATE_PROMPT.format(question=question, context=context)` of api.py. -/
def GENERATE_PROMPT (question context : String) : String :=
  "You are a helpful educational assistant for students. Use the following information from school books to answer the student\x27s question.\n\nInstructions:\n- Provide a clear, educational explanation suitable for students\n- If the context includes formulas or equations, explain them step by step\n- If you\x27re not sure about something, say so\n- Keep the answer focused and concise\n\nQuestion: "
    ++ question
    ++ "\n\nContext from books:\n"
    ++ context
    ++ "\n\nAnswer:"

/-- `state["messages"][i]` with a default that is never reached on the
states the graph visits (the message list always holds turn 0). -/
def msgAt (ms : List Message) (i : Nat) : Message :=
  (ms.get? i).getD (Message.mk Role.user "" none)

/-- `state["messages"][-1]` with the same convention. -/
def lastMsg (ms : List Message) : Message :=
  ms.getLast?.getD (Message.mk Role.user "" none)

/-- `grade_documents` of api.py (lines 163-175): build the grading prompt
from turn 0 and the last turn, call the structured-output grader, and route
on whether `binary_score == "yes"`. -/
def grade_documents (graderLLM : String → String) (messages : List Message) : String :=
  let question := (msgAt messages 0).content
  let context := (lastMsg messages).content
  let score := graderLLM (GRADE_PROMPT question context)
  if score = "yes" then "generate_answer" else "rewrite_question"

/-- The routing model's reply: its text content and the query of the
requested `retrieve_from_books` call, when a tool call was made. -/
structure RouteResponse where
  content : String
  toolQuery : Option String
  deriving DecidableEq, Repr

/-- The external collaborators of one request, each deterministic in its
full input (the chat model runs at temperature 0):
`routeLLM` is `llm.bind_tools([retriever_tool]).invoke(messages)`,
`graderLLM` is `llm.with_structured_output(GradeDocuments)` applied to a
prompt and returning the `binary_score` field, `chatLLM` is a plain
`llm.invoke` on a single user prompt (used by both the rewriter and the
generator), and `retrieverDocs` is `retriever.invoke`. -/
structure Oracle where
  routeLLM : List Message → RouteResponse
  graderLLM : String → String
  chatLLM : String → String
  retrieverDocs : String → List Doc

/-- langgraph's `tools_condition` applied to the routing reply: branch to
the tool node exactly when the reply carries a tool call. -/
def tools_condition (m : Message) : Bool :=
  m.toolQuery.isSome

/-- Nodes of the compiled graph of `build_graph`.  `grade` stands for the
conditional edge `grade_documents` evaluated after the tool node. -/
inductive Node
  | route
  | retrieve
  | grade
  | rewrite
  | generate
  | done
  deriving DecidableEq, Repr

/-- One in-flight request: the current graph position, the conversation
state (`MessagesState`, append-only), the `retrieved_sources` global as
seen by this request, call counters, and ghost logs recording the argument
each component call actually received. -/
structure GState where
  node : Node
  messages : List Message
  retrieved_sources : List SourceDocument
  routeCount : Nat
  retrieveCount : Nat
  gradeCount : Nat
  rewriteCount : Nat
  generateCount : Nat
  rewriteLog : List String
  generateLog : List (String × String)
  toolLog : List String
  deriving DecidableEq, Repr

/-- State at `graph.invoke({"messages": [{"role": "user", "content": q}]})`
after `ask_question` has reset the `retrieved_sources` global. -/
def initState (question : String) : GState :=
  { node := Node.route
    messages := [Message.mk Role.user question none]
    retrieved_sources := []
    routeCount := 0
    retrieveCount := 0
    gradeCount := 0
    rewriteCount := 0
    generateCount := 0
    rewriteLog := []
    generateLog := []
    toolLog := [] }

/-- One superstep of the compiled graph of `build_graph` (api.py lines
228-263): each branch is the body of the corresponding node function,
followed by the edge wiring. -/
def step (o : Oracle) (s : GState) : GState :=
  match s.node with
  | Node.route =>
      let resp := o.routeLLM s.messages
      let m := Message.mk Role.assistant resp.content resp.toolQuery
      { s with
        messages := s.messages ++ [m]
        routeCount := s.routeCount + 1
        node := if tools_condition m then Node.retrieve else Node.done }
  | Node.retrieve =>
      let query := (lastMsg s.messages).toolQuery.getD ""
      let r := retrieve_from_books o.retrieverDocs query
      { s with
        messages := s.messages ++ [Message.mk Role.tool r.2 none]
        retrieved_sources := r.1
        retrieveCount := s.retrieveCount + 1
        toolLog := s.toolLog ++ [r.2]
        node := Node.grade }
  | Node.grade =>
      let next := grade_documents o.graderLLM s.messages
      { s with
        gradeCount := s.gradeCount + 1
        node := if next = "generate_answer" then Node.generate else Node.rewrite }
  | Node.rewrite =>
      let question := (msgAt s.messages 0).content
      let rewritten := o.chatLLM (REWRITE_PROMPT question)
      { s with
        messages := s.messages ++ [Message.mk Role.user rewritten none]
        rewriteCount := s.rewriteCount + 1
        rewriteLog := s.rewriteLog ++ [question]
        node := Node.route }
  | Node.generate =>
      let question := (msgAt s.messages 0).content
      let context := (lastMsg s.messages).content
      let answer := o.chatLLM (GENERATE_PROMPT question context)
      { s with
        messages := s.messages ++ [Message.mk Role.assistant answer none]
        generateCount := s.generateCount + 1
        generateLog := s.generateLog ++ [(question, context)]
        node := Node.done }
  | Node.done => s

/-- Executing `n` supersteps of the graph. -/
def runN (o : Oracle) (s : GState) : Nat → GState
  | 0 => s
  | n + 1 => runN o (step o s) n

theorem runN_add (o : Oracle) (s : GState) (m n : Nat) :
    runN o s (m + n) = runN o (runN o s m) n := by
  induction m generalizing s with
  | zero => rw [Nat.zero_add]; rfl
  | succ m ih =>
      have h : m + 1 + n = (m + n) + 1 := by omega
      rw [h, runN, runN, ih]

theorem step_done (o : Oracle) (s : GState) (h : s.node = Node.done) :
    step o s = s := by
  unfold step
  rw [h]

theorem runN_done (o : Oracle) (s : GState) (h : s.node = Node.done) (n : Nat) :
    runN o s n = s := by
  induction n with
  | zero => rfl
  | succ n ih => rw [runN, step_done o s h, ih]

/-- `QuestionResponse` pydantic model of api.py; `sources = none` models the
field being omitted from the JSON response. -/
structure QuestionResponse where
  question : String
  answer : String
  sources : Option (List SourceDocument)
  deriving DecidableEq, Repr

/-- A FastAPI `HTTPException` as raised by `ask_question`. -/
structure HTTPError where
  status_code : Nat
  detail : String
  deriving DecidableEq, Repr

/-- `ask_question` of api.py (lines 305-360) after `graph.invoke`: the
argument carries either the final graph state or the exception the run
raised.  Any exception becomes a single 500 error; an empty final answer
also becomes a single 500 error; otherwise the response is assembled, with
sources attached only when requested and the `retrieved_sources` global is
non-empty. -/
def ask_question (invokeResult : Except String GState) (question : String)
    (include_sources : Bool) : Except HTTPError QuestionResponse :=
  match invokeResult with
  | Except.error e => Except.error (HTTPError.mk 500 ("An error occurred: " ++ e))
  | Except.ok final =>
      let final_response := (lastMsg final.messages).content
      if final_response = "" then
        Except.error
          (HTTPError.mk 500 "Failed to generate a response. Please try rephrasing your question.")
      else
        Except.ok
          { question := question
            answer := final_response
            sources :=
              if include_sources && !final.retrieved_sources.isEmpty then
                some final.retrieved_sources
              else none }

/-- Oracle in which the router always requests retrieval, the retriever
finds nothing, and the grader always answers "no": the all-irrelevant
scenario of the rewrite loop. -/
def allNoOracle : Oracle :=
  { routeLLM := fun _ => RouteResponse.mk "" (some "anything")
    graderLLM := fun _ => "no"
    chatLLM := fun _ => "rewritten query"
    retrieverDocs := fun _ => [] }

/-- Claim C2 counterexample: a structured grader output outside the
binary set, here "maybe", is not reported as an error — `grade_documents`
silently routes it to `rewrite_question`, exactly as it routes "no". -/
theorem grader_malformed_output_silently_coerced :
    (("maybe" == "yes") = false) ∧ (("maybe" == "no") = false) ∧
    grade_documents (fun _ => "maybe")
      [Message.mk Role.user "q" none, Message.mk Role.tool "ctx" none] =
      "rewrite_question" := by
  refine ⟨rfl, rfl, ?_⟩
  decide

/-- Claim C2, amended: `grade_documents` treats any `binary_score` other
than exactly "yes" — including strings outside the {"yes","no"} contract —
as the irrelevant verdict and routes to `rewrite_question`; no grading call
is reported as a failure. -/
theorem grader_nonyes_routes_to_rewrite (score : String) (ms : List Message)
    (h : score ≠ "yes") :
    grade_documents (fun _ => score) ms = "rewrite_question" := by
  simp [grade_documents, h]

/-- Witness for the amended C2 at the malformed output "Yes". -/
theorem grader_nonyes_routes_to_rewrite_witness :
    grade_documents (fun _ => "Yes") [] = "rewrite_question" :=
  grader_nonyes_routes_to_rewrite "Yes" [] (by decide)

/-- Claim C7: an empty similarity-search result is a valid, non-error
outcome — the tool returns the explicit "no results" marker, which is
appended as a tool-result turn, and the graph still moves to grading. -/
theorem empty_retrieval_is_not_an_error (o : Oracle) (s : GState)
    (hnode : s.node = Node.retrieve)
    (hdocs : o.retrieverDocs ((lastMsg s.messages).toolQuery.getD "") = []) :
    (step o s).node = Node.grade ∧
    (step o s).messages =
      s.messages ++ [Message.mk Role.tool "No relevant information found in the books." none] ∧
    (step o s).retrieved_sources = [] := by
  rcases s with ⟨node, ms, src, rc, retc, gc, wc, genc, wl, genl, tl⟩
  obtain rfl : node = Node.retrieve := hnode
  simp only at hdocs
  simp [step, retrieve_from_books, hdocs, retrieveResult]

/-- Witness for C7: the all-irrelevant oracle one step after routing. -/
theorem empty_retrieval_is_not_an_error_witness :
    (step allNoOracle (runN allNoOracle (initState "hi") 1)).node = Node.grade ∧
    (step allNoOracle (runN allNoOracle (initState "hi") 1)).messages =
      (runN allNoOracle (initState "hi") 1).messages ++
        [Message.mk Role.tool "No relevant information found in the books." none] ∧
    (step allNoOracle (runN allNoOracle (initState "hi") 1)).retrieved_sources = [] :=
  empty_retrieval_is_not_an_error allNoOracle _ rfl rfl

/-- Claim C8: the preview of a retrieved passage is the passage content
itself when it has at most 200 characters, and exactly the first 200
characters followed by the "..." marker when longer. -/
theorem preview_is_capped_content_head (d : Doc) :
    (d.page_content.length ≤ 200 → (mkSource d).content_preview = d.page_content) ∧
    (200 < d.page_content.length →
      (mkSource d).content_preview = d.page_content.take 200 ++ "...") := by
  have hp : (mkSource d).content_preview = contentPreview d.page_content := rfl
  constructor
  · intro h
    rw [hp, contentPreview, if_neg (by omega)]
  · intro h
    rw [hp, contentPreview, if_pos h]

/-- A short document for the C8 witness. -/
def shortDoc : Doc := Doc.mk "abc" (some "s.pdf") (some (PyVal.vint 1))

/-- A 201-character document for the C8 witness. -/
def longDoc : Doc := Doc.mk (String.mk (List.replicate 201 'a')) (some "s.pdf") (some (PyVal.vint 1))

/-- Witness for C8 at a short and at a 201-character passage. -/
theorem preview_is_capped_content_head_witness :
    (mkSource shortDoc).content_preview = "abc" ∧
    (mkSource longDoc).content_preview =
      (String.mk (List.replicate 201 'a')).take 200 ++ "..." :=
  ⟨(preview_is_capped_content_head shortDoc).1 (by decide),
   (preview_is_capped_content_head longDoc).2 (by decide)⟩

/-- Claim C10: building a source record is total over arbitrary page
metadata — an integer page is stored as is, a float page is truncated
toward zero, and any non-numeric or missing value is coerced to 0. -/
theorem page_coercion_total (d : Doc) :
    (∀ n : Int, d.page = some (PyVal.vint n) → (mkSource d).page = n) ∧
    (∀ q : Rat, d.page = some (PyVal.vfloat q) → (mkSource d).page = truncRat q) ∧
    (∀ v : PyVal, d.page = some v → isNumericPy v = false → (mkSource d).page = 0) ∧
    (d.page = none → (mkSource d).page = 0) := by
  have hp : (mkSource d).page = pageToInt (d.page.getD (PyVal.vstr "Unknown")) := rfl
  refine ⟨?_, ?_, ?_, ?_⟩
  · intro n h; rw [hp, h]; rfl
  · intro q h; rw [hp, h]; rfl
  · intro v h hv; rw [hp, h]; cases v <;> simp_all [pageToInt, isNumericPy]
  · intro h; rw [hp, h]; rfl

/-- Document with float page metadata for the C10 witness. -/
def floatPageDoc : Doc := Doc.mk "c" (some "f.pdf") (some (PyVal.vfloat (-7 / 2)))

/-- Document with string page metadata for the C10 witness. -/
def strPageDoc : Doc := Doc.mk "c" (some "f.pdf") (some (PyVal.vstr "iv"))

/-- Document with no metadata at all for the C10 witness. -/
def noPageDoc : Doc := Doc.mk "c" none none

/-- Witness for C10 at a float page, a string page and a missing page. -/
theorem page_coercion_total_witness :
    (mkSource floatPageDoc).page = truncRat (-7 / 2) ∧
    (mkSource strPageDoc).page = 0 ∧
    (mkSource noPageDoc).page = 0 :=
  ⟨(page_coercion_total floatPageDoc).2.1 (-7 / 2) rfl,
   (page_coercion_total strPageDoc).2.2.1 (PyVal.vstr "iv") rfl rfl,
   (page_coercion_total noPageDoc).2.2.2 rfl⟩

theorem allNo_cycle (s : GState) (h : s.node = Node.route) :
    (runN allNoOracle s 4).node = Node.route ∧
    (runN allNoOracle s 4).rewriteCount = s.rewriteCount + 1 ∧
    (runN allNoOracle s 4).retrieveCount = s.retrieveCount + 1 := by
  rcases s with ⟨node, ms, src, rc, retc, gc, wc, genc, wl, genl, tl⟩
  obtain rfl : node = Node.route := h
  exact ⟨rfl, rfl, rfl⟩

/-- Claim C1 (refuted, code bug): `build_graph` wires
`rewrite_question → generate_query_or_respond` with no step counter and no
cap anywhere in the repository, so under an all-irrelevant grading sequence
the Rewrite→Route→Retrieve→Grade cycle repeats forever: after `4 * k`
supersteps the graph is back at routing with `k` rewrites and `k`
retrievals already performed — for every claimed cap the run exceeds it and
never reaches the terminal state, and no best-effort generation or
"unable to find relevant information" response is ever forced. -/
theorem rewrite_loop_unbounded (q : String) (k : Nat) :
    (runN allNoOracle (initState q) (4 * k)).node = Node.route ∧
    (runN allNoOracle (initState q) (4 * k)).rewriteCount = k ∧
    (runN allNoOracle (initState q) (4 * k)).retrieveCount = k := by
  induction k with
  | zero => exact ⟨rfl, rfl, rfl⟩
  | succ k ih =>
      have h4 : 4 * (k + 1) = 4 * k + 4 := by ring
      rw [h4, runN_add]
      obtain ⟨h1, h2, h3⟩ := ih
      obtain ⟨g1, g2, g3⟩ := allNo_cycle _ h1
      exact ⟨g1, by rw [g2, h2], by rw [g3, h3]⟩

/-- The conversation-state invariant behind C4: turn 0 is the original
user question and every rewrite call so far received exactly it. -/
def TurnZeroInv (q : String) (s : GState) : Prop :=
  (∃ rest, s.messages = Message.mk Role.user q none :: rest) ∧
    ∀ x ∈ s.rewriteLog, x = q

theorem turnZeroInv_init (q : String) : TurnZeroInv q (initState q) :=
  ⟨⟨[], rfl⟩, by intro x hx; cases hx⟩

theorem step_messages_extend (o : Oracle) (s : GState) :
    ∃ t, (step o s).messages = s.messages ++ t := by
  rcases s with ⟨node, ms, src, rc, retc, gc, wc, genc, wl, genl, tl⟩
  cases node
  case route => exact ⟨_, rfl⟩
  case retrieve => exact ⟨_, rfl⟩
  case grade => exact ⟨[], by simp [step]⟩
  case rewrite => exact ⟨_, rfl⟩
  case generate => exact ⟨_, rfl⟩
  case done => exact ⟨[], by simp [step]⟩

theorem step_rewriteLog (o : Oracle) (s : GState) :
    (step o s).rewriteLog = s.rewriteLog ∨
    (step o s).rewriteLog = s.rewriteLog ++ [(msgAt s.messages 0).content] := by
  rcases s with ⟨node, ms, src, rc, retc, gc, wc, genc, wl, genl, tl⟩
  cases node <;> first | exact Or.inl rfl | exact Or.inr rfl

theorem turnZeroInv_step (o : Oracle) (q : String) (s : GState)
    (h : TurnZeroInv q s) : TurnZeroInv q (step o s) := by
  obtain ⟨⟨rest, hm⟩, hlog⟩ := h
  constructor
  · obtain ⟨t, ht⟩ := step_messages_extend o s
    exact ⟨rest ++ t, by rw [ht, hm]; rfl⟩
  · rcases step_rewriteLog o s with hr | hr
    · rw [hr]; exact hlog
    · rw [hr]
      intro x hx
      rcases List.mem_append.mp hx with hx | hx
      · exact hlog x hx
      · have hq : msgAt s.messages 0 = Message.mk Role.user q none := by
          rw [hm]; rfl
        rw [List.mem_singleton.mp hx, hq]

theorem turnZeroInv_runN (o : Oracle) (q : String) (n : Nat) :
    TurnZeroInv q (runN o (initState q) n) := by
  suffices h : ∀ s, TurnZeroInv q s → TurnZeroInv q (runN o s n) from
    h _ (turnZeroInv_init q)
  induction n with
  | zero => exact fun s hs => hs
  | succ n ih => exact fun s hs => ih _ (turnZeroInv_step o q s hs)

theorem step_rewrite_messages (o : Oracle) (s : GState)
    (hnode : s.node = Node.rewrite) :
    (step o s).messages =
      s.messages ++
        [Message.mk Role.user
          (o.chatLLM (REWRITE_PROMPT ((msgAt s.messages 0).content))) none] := by
  rcases s with ⟨node, ms, src, rc, retc, gc, wc, genc, wl, genl, tl⟩
  obtain rfl : node = Node.rewrite := hnode
  rfl

/-- Claim C4: across the whole request, turn 0 of the conversation state is
the unchanged original user question; every rewrite call operated on
exactly that turn-0 content (never on a previously rewritten query); and a
rewrite step appends its output as a new user-role turn built from the
original question. -/
theorem rewriter_uses_turn_zero (o : Oracle) (q : String) (n : Nat) :
    (∃ rest, (runN o (initState q) n).messages = Message.mk Role.user q none :: rest) ∧
    (∀ x ∈ (runN o (initState q) n).rewriteLog, x = q) ∧
    ((runN o (initState q) n).node = Node.rewrite →
      (step o (runN o (initState q) n)).messages =
        (runN o (initState q) n).messages ++
          [Message.mk Role.user (o.chatLLM (REWRITE_PROMPT q)) none]) := by
  obtain ⟨⟨rest, hm⟩, hlog⟩ := turnZeroInv_runN o q n
  refine ⟨⟨rest, hm⟩, hlog, ?_⟩
  intro hnode
  have hq : (msgAt (runN o (initState q) n).messages 0).content = q := by
    rw [hm]; rfl
  rw [step_rewrite_messages o _ hnode, hq]

/-- Witness for C4 with the all-irrelevant oracle after seven supersteps
(the graph is then at its second rewrite; one rewrite has been logged). -/
theorem rewriter_uses_turn_zero_witness :
    (runN allNoOracle (initState "orig") 7).messages =
      Message.mk Role.user "orig" none ::
        ((runN allNoOracle (initState "orig") 7).messages.tail) ∧
    ((runN allNoOracle (initState "orig") 7).rewriteLog.getD 0 "") = "orig" ∧
    (step allNoOracle (runN allNoOracle (initState "orig") 7)).messages =
      (runN allNoOracle (initState "orig") 7).messages ++
        [Message.mk Role.user (allNoOracle.chatLLM (REWRITE_PROMPT "orig")) none] := by
  obtain ⟨⟨rest, hm⟩, hlog, hrw⟩ := rewriter_uses_turn_zero allNoOracle "orig" 7
  refine ⟨by rw [hm]; rfl, ?_, hrw (by decide)⟩
  exact hlog _ (by decide)

/-- The invariant behind C6: whenever the graph sits at grading or at
answer generation, the last conversation turn is the tool-result turn of
the most recent retrieval (the last entry of the retrieval log). -/
def ToolTurnInv (s : GState) : Prop :=
  (s.node = Node.grade ∨ s.node = Node.generate) →
    ∃ r, s.toolLog.getLast? = some r ∧
      s.messages.getLast? = some (Message.mk Role.tool r none)

theorem toolTurnInv_init (q : String) : ToolTurnInv (initState q) := by
  intro hn
  rcases hn with hn | hn <;> cases hn

theorem toolTurnInv_step (o : Oracle) (s : GState) (h : ToolTurnInv s) :
    ToolTurnInv (step o s) := by
  rcases s with ⟨node, ms, src, rc, retc, gc, wc, genc, wl, genl, tl⟩
  cases node
  case route =>
      intro hn
      exfalso
      rcases hn with hn | hn <;> (simp only [step] at hn; split at hn <;> cases hn)
  case retrieve =>
      intro _
      refine ⟨(retrieve_from_books o.retrieverDocs ((lastMsg ms).toolQuery.getD "")).2, ?_, ?_⟩
      · exact List.getLast?_concat tl
      · exact List.getLast?_concat ms
  case grade =>
      intro _
      exact h (Or.inl rfl)
  case rewrite =>
      intro hn
      rcases hn with hn | hn <;> cases hn
  case generate =>
      intro hn
      rcases hn with hn | hn <;> cases hn
  case done =>
      intro hn
      rcases hn with hn | hn <;> cases hn

theorem toolTurnInv_runN (o : Oracle) (q : String) (n : Nat) :
    ToolTurnInv (runN o (initState q) n) := by
  suffices h : ∀ s, ToolTurnInv s → ToolTurnInv (runN o s n) from
    h _ (toolTurnInv_init q)
  induction n with
  | zero => exact fun s hs => hs
  | succ n ih => exact fun s hs => ih _ (toolTurnInv_step o s hs)

theorem step_generate_log (o : Oracle) (s : GState)
    (hnode : s.node = Node.generate) :
    (step o s).generateLog =
      s.generateLog ++ [((msgAt s.messages 0).content, (lastMsg s.messages).content)] := by
  rcases s with ⟨node, ms, src, rc, retc, gc, wc, genc, wl, genl, tl⟩
  obtain rfl : node = Node.generate := hnode
  rfl

/-- Claim C6: whenever the graph performs answer generation, the generation
call receives the original question together with a context that is exactly
the text of the most recent retrieval's tool-result turn — never context
retained from an earlier retrieval attempt of the same request. -/
theorem generation_context_is_latest_retrieval (o : Oracle) (q : String) (n : Nat)
    (hnode : (runN o (initState q) n).node = Node.generate) :
    (step o (runN o (initState q) n)).generateLog =
      (runN o (initState q) n).generateLog ++
        [(q, ((runN o (initState q) n).toolLog.getLast?).getD "")] := by
  obtain ⟨r, hr1, hr2⟩ := toolTurnInv_runN o q n (Or.inr hnode)
  obtain ⟨⟨rest, hm⟩, -⟩ := turnZeroInv_runN o q n
  rw [step_generate_log o _ hnode]
  have hq : (msgAt (runN o (initState q) n).messages 0).content = q := by
    rw [hm]; rfl
  have hc : (lastMsg (runN o (initState q) n).messages).content = r := by
    unfold lastMsg
    rw [hr2]
    rfl
  rw [hq, hc, hr1]
  rfl

/-- Oracle in which the router requests retrieval, the retriever returns a
passage and the grader accepts it: the happy path reaching generation. -/
def yesOracle : Oracle :=
  { routeLLM := fun _ => RouteResponse.mk "" (some "cap theorem")
    graderLLM := fun _ => "yes"
    chatLLM := fun _ => "The CAP theorem."
    retrieverDocs := fun _ =>
      [Doc.mk "CAP theorem text" (some "distsys.pdf") (some (PyVal.vint 12))] }

/-- Witness for C6 on the happy path, at the superstep entering generation. -/
theorem generation_context_is_latest_retrieval_witness :
    (step yesOracle (runN yesOracle (initState "q") 3)).generateLog =
      (runN yesOracle (initState "q") 3).generateLog ++
        [("q", (((runN yesOracle (initState "q") 3).toolLog.getLast?).getD ""))] :=
  generation_context_is_latest_retrieval yesOracle "q" 3 (by decide)

theorem ask_question_ok_sources_none (final : GState) (q : String) (inc : Bool)
    (hsrc : final.retrieved_sources = []) (r : QuestionResponse)
    (hr : ask_question (Except.ok final) q inc = Except.ok r) : r.sources = none := by
  simp only [ask_question] at hr
  by_cases hc : (lastMsg final.messages).content = ""
  · rw [if_pos hc] at hr
    cases hr
  · rw [if_neg hc] at hr
    cases hr
    simp [hsrc]

/-- Claim C5: when the routing model answers the initial question without a
tool call, the graph goes straight from routing to the terminal state, no
retrieval call happens, the sources global stays empty, and any response
the handler returns carries no sources even with `include_sources = true`. -/
theorem direct_route_no_retrieval (o : Oracle) (q : String) (inc : Bool) (fuel : Nat)
    (hdirect : (o.routeLLM [Message.mk Role.user q none]).toolQuery = none)
    (hfuel : 1 ≤ fuel) :
    (runN o (initState q) fuel).node = Node.done ∧
    (runN o (initState q) fuel).retrieveCount = 0 ∧
    (runN o (initState q) fuel).retrieved_sources = [] ∧
    ∀ r, ask_question (Except.ok (runN o (initState q) fuel)) q inc = Except.ok r →
      r.sources = none := by
  obtain ⟨m, rfl⟩ : ∃ m, fuel = m + 1 := ⟨fuel - 1, by omega⟩
  have hstep : (step o (initState q)).node = Node.done ∧
      (step o (initState q)).retrieveCount = 0 ∧
      (step o (initState q)).retrieved_sources = [] := by
    refine ⟨?_, rfl, rfl⟩
    simp [step, initState, tools_condition, hdirect]
  have h1 : runN o (initState q) (m + 1) = step o (initState q) := by
    show runN o (step o (initState q)) m = step o (initState q)
    exact runN_done o _ hstep.1 m
  rw [h1]
  exact ⟨hstep.1, hstep.2.1, hstep.2.2,
    fun r hr => ask_question_ok_sources_none _ q inc hstep.2.2 r hr⟩

/-- Oracle whose routing reply answers directly (no tool call). -/
def directOracle : Oracle :=
  { routeLLM := fun _ => RouteResponse.mk "Hello! How can I help you today?" none
    graderLLM := fun _ => "yes"
    chatLLM := fun _ => "x"
    retrieverDocs := fun _ => [] }

/-- Witness for C5 at the question "hello" with sources requested. -/
theorem direct_route_no_retrieval_witness :
    (runN directOracle (initState "hello") 3).node = Node.done ∧
    (runN directOracle (initState "hello") 3).retrieveCount = 0 ∧
    (runN directOracle (initState "hello") 3).retrieved_sources = [] ∧
    (QuestionResponse.mk "hello" "Hello! How can I help you today?" none).sources = none := by
  have h := direct_route_no_retrieval directOracle "hello" true 3 rfl (by omega)
  exact ⟨h.1, h.2.1, h.2.2.1, h.2.2.2 _ (by rfl)⟩

/-- The external collaborators with failure: each call either returns a
value or raises an exception (timeout, connection error, malformed output
of a structured call). -/
structure OracleE where
  routeLLM : List Message → Except String RouteResponse
  graderLLM : String → Except String String
  chatLLM : String → Except String String
  retrieverDocs : String → Except String (List Doc)

/-- One superstep where every collaborator call can raise.  The node
bodies of api.py contain no exception handling, so a raised exception
aborts the step and propagates out of `graph.invoke`. -/
def stepE (o : OracleE) (s : GState) : Except String GState :=
  match s.node with
  | Node.route => do
      let resp ← o.routeLLM s.messages
      let m := Message.mk Role.assistant resp.content resp.toolQuery
      pure { s with
        messages := s.messages ++ [m]
        routeCount := s.routeCount + 1
        node := if tools_condition m then Node.retrieve else Node.done }
  | Node.retrieve => do
      let query := (lastMsg s.messages).toolQuery.getD ""
      let docs ← o.retrieverDocs query
      let r := retrieveResult docs
      pure { s with
        messages := s.messages ++ [Message.mk Role.tool r.2 none]
        retrieved_sources := r.1
        retrieveCount := s.retrieveCount + 1
        toolLog := s.toolLog ++ [r.2]
        node := Node.grade }
  | Node.grade => do
      let question := (msgAt s.messages 0).content
      let context := (lastMsg s.messages).content
      let score ← o.graderLLM (GRADE_PROMPT question context)
      pure { s with
        gradeCount := s.gradeCount + 1
        node := if score = "yes" then Node.generate else Node.rewrite }
  | Node.rewrite => do
      let question := (msgAt s.messages 0).content
      let rewritten ← o.chatLLM (REWRITE_PROMPT question)
      pure { s with
        messages := s.messages ++ [Message.mk Role.user rewritten none]
        rewriteCount := s.rewriteCount + 1
        rewriteLog := s.rewriteLog ++ [question]
        node := Node.route }
  | Node.generate => do
      let question := (msgAt s.messages 0).content
      let context := (lastMsg s.messages).content
      let answer ← o.chatLLM (GENERATE_PROMPT question context)
      pure { s with
        messages := s.messages ++ [Message.mk Role.assistant answer none]
        generateCount := s.generateCount + 1
        generateLog := s.generateLog ++ [(question, context)]
        node := Node.done }
  | Node.done => pure s

/-- `graph.invoke` with failure: run `n` supersteps, aborting the run at
the first raised exception. -/
def runE (o : OracleE) (s : GState) : Nat → Except String GState
  | 0 => Except.ok s
  | n + 1 =>
      match stepE o s with
      | Except.error e => Except.error e
      | Except.ok s2 => runE o s2 n

/-- The `/api/ask` handler with `graph.invoke` inlined: the try/except of
api.py wraps the whole graph run. -/
def ask_questionFull (o : OracleE) (question : String) (include_sources : Bool)
    (fuel : Nat) : Except HTTPError QuestionResponse :=
  ask_question (runE o (initState question) fuel) question include_sources

/-- Claim C9: a collaborator call raising an exception anywhere during the
run aborts the whole run with that exception, and the handler then returns
a single user-facing 500 error with a human-readable message — no response
object (and in particular no incomplete answer or state) is returned. -/
theorem component_failure_single_error (o : OracleE) (q : String) (inc : Bool)
    (fuel : Nat) (e : String) (h : runE o (initState q) fuel = Except.error e) :
    ask_questionFull o q inc fuel =
      Except.error (HTTPError.mk 500 ("An error occurred: " ++ e)) ∧
    ∀ s m e2, stepE o s = Except.error e2 → runE o s (m + 1) = Except.error e2 := by
  constructor
  · unfold ask_questionFull
    rw [h]
    rfl
  · intro s m e2 hs
    show (match stepE o s with
      | Except.error e => Except.error e
      | Except.ok s2 => runE o s2 m) = Except.error e2
    rw [hs]

/-- Oracle whose grading call times out; routing and retrieval succeed. -/
def timeoutOracle : OracleE :=
  { routeLLM := fun _ => Except.ok (RouteResponse.mk "" (some "q"))
    graderLLM := fun _ => Except.error "Request timed out."
    chatLLM := fun _ => Except.ok "x"
    retrieverDocs := fun _ => Except.ok [] }

/-- Witness for C9: the grader times out at the third superstep. -/
theorem component_failure_single_error_witness :
    ask_questionFull timeoutOracle "q" true 5 =
      Except.error (HTTPError.mk 500 "An error occurred: Request timed out.") ∧
    runE timeoutOracle { initState "q" with node := Node.grade } 1 =
      Except.error "Request timed out." := by
  have h := component_failure_single_error timeoutOracle "q" true 5 "Request timed out." (by rfl)
  exact ⟨h.1, h.2 _ 0 _ (by rfl)⟩

/-- One atomic action of one of two concurrent `/api/ask` requests A and B:
the reset `retrieved_sources = []` at the start of the handler, the
assignment performed inside `retrieve_from_books`, and the read that
builds the `sources` field of the response.  All three touch the same
module-level `retrieved_sources` global of api.py. -/
inductive ReqAction
  | resetA
  | retrieveA
  | readA
  | resetB
  | retrieveB
  | readB
  deriving DecidableEq, Repr

/-- The process state shared by two concurrent requests: the one global
list, plus what each request has read for its response. -/
structure TwoReqState where
  retrieved_sources : List SourceDocument
  sourcesA : Option (List SourceDocument)
  sourcesB : Option (List SourceDocument)
  deriving DecidableEq, Repr

/-- Effect of one atomic action on the shared process state, where request
A's retrieval finds `docsA` and request B's finds `docsB`. -/
def doAction (docsA docsB : List Doc) : ReqAction → TwoReqState → TwoReqState
  | ReqAction.resetA, s => { s with retrieved_sources := [] }
  | ReqAction.resetB, s => { s with retrieved_sources := [] }
  | ReqAction.retrieveA, s => { s with retrieved_sources := (retrieveResult docsA).1 }
  | ReqAction.retrieveB, s => { s with retrieved_sources := (retrieveResult docsB).1 }
  | ReqAction.readA, s => { s with sourcesA := some s.retrieved_sources }
  | ReqAction.readB, s => { s with sourcesB := some s.retrieved_sources }

/-- Run an interleaved schedule of the two requests' atomic actions. -/
def runSched (docsA docsB : List Doc) (sched : List ReqAction)
    (s : TwoReqState) : TwoReqState :=
  sched.foldl (fun st a => doAction docsA docsB a st) s

/-- The document request A retrieves in the C3 interleaving. -/
def docA : Doc := Doc.mk "alpha content" (some "a.pdf") (some (PyVal.vint 1))

/-- The document request B retrieves in the C3 interleaving. -/
def docB : Doc := Doc.mk "beta content" (some "b.pdf") (some (PyVal.vint 2))

/-- Claim C3 (refuted, code bug): `retrieved_sources` is one module-level
global shared by all requests.  Under the interleaving in which request B's
retrieval runs between request A's retrieval and A's response assembly,
request A's response sources are exactly B's entry (citing b.pdf), although
A's own retrieval produced the a.pdf entry — the sources list is not
request-scoped. -/
theorem shared_sources_cross_request :
    (runSched [docA] [docB]
        [ReqAction.resetA, ReqAction.retrieveA, ReqAction.resetB,
         ReqAction.retrieveB, ReqAction.readA, ReqAction.readB]
        (TwoReqState.mk [] none none)).sourcesA =
      some [SourceDocument.mk "b.pdf" 2 "beta content"] ∧
    (retrieveResult [docA]).1 = [SourceDocument.mk "a.pdf" 1 "alpha content"] := by
  refine ⟨?_, ?_⟩ <;> rfl

end QuickRag
